import Mathlib

/-!
Verification of the gistapi search service (src/gistapi/gistapi.py).

The module is a Flask app with two routes and one helper:
  * `gists_for_user(username)` builds the GitHub listing URL and returns
    `requests.get(url).json()`;
  * `search()` (POST /api/v1/search) validates the JSON body, lists the
    user's gists, and for each gist takes the first file of the `files`
    mapping, fetches its `raw_url`, compiles the pattern with `re.compile`,
    runs `re.findall`, and appends `https://gist.github.com/{username}/{gist_id}`
    to `matches` when the result is non-empty; it finally returns a dict
    with keys status/username/pattern/matches.

External effects (`requests.get(..).json()`, `requests.get(..).text`,
`re.compile`, `re.findall`) are modelled as an environment of functions
returning `Except` values; Python exceptions are the `PyError` type and
propagate exactly where the source lets them propagate (there is no
try/except anywhere in the module).
-/

namespace Gistapi

/-- Python exceptions that can escape the handler: `IndexError` from
`list(gist.get("files").keys())[0]` on an empty mapping, `KeyError` from
`post_data['...']`, a `requests` failure (connection/timeout/JSON decode),
and `re.error` from `re.compile`. -/
inductive PyError where
  | indexError
  | keyError (k : String)
  | requestError (msg : String)
  | patternError (msg : String)
deriving Repr, DecidableEq

/-- One value of the gist's `files` mapping: `{"raw_url": ...}`. -/
structure FileRef where
  raw_url : String
deriving Repr, DecidableEq

/-- One element of the JSON array returned by the listing endpoint:
an `id` and the `files` mapping, kept as an association list in the
order of the JSON object (Python dicts preserve insertion order, so
`list(d.keys())[0]` is the first entry). -/
structure Gist where
  id : String
  files : List (String × FileRef)
deriving Repr, DecidableEq

/-- The `result` dict built at the end of `search()`. -/
structure SearchResult where
  status : String
  username : String
  pattern : String
  «matches» : List String
deriving Repr, DecidableEq

/-- The external world: `get_json url` models `requests.get(url).json()`
parsed into gists, `get_text url` models `requests.get(url).text`,
`compile` models `re.compile` (the compiled pattern is represented by a
string), `findall` models `re.findall` applied to a compiled pattern and a
text, returning the list of all (non-overlapping) occurrences found
anywhere in the text. -/
structure Env where
  get_json : String → Except PyError (List Gist)
  get_text : String → Except PyError String
  compile : String → Except PyError String
  findall : String → String → List String

/-- `'https://api.github.com/users/{username}/gists'.format(username=username)`. -/
def gists_url (username : String) : String :=
  "https://api.github.com/users/" ++ username ++ "/gists"

/-- `gists_for_user`: GET the listing URL and parse the JSON body. -/
def gists_for_user (env : Env) (username : String) : Except PyError (List Gist) :=
  env.get_json (gists_url username)

/-- The f-string `f"https://gist.github.com/{username}/{gist_id}"`. -/
def gist_match_url (username : String) (gist_id : String) : String :=
  "https://gist.github.com/" ++ username ++ "/" ++ gist_id

/-- The `for gist in gists:` loop of `search()`, with `matches` as the
accumulator.  Per gist, in source order: take the first key of the
`files` mapping (`IndexError` when the mapping is empty; looking the key
back up returns that first entry's value), GET its `raw_url` (a failure
propagates), `re.compile(pattern)` (a `re.error` propagates), then
`re.findall`; when the result list is non-empty, append the constructed
gist URL. -/
def process_gists (env : Env) (username pattern : String) :
    List Gist → List String → Except PyError (List String)
  | [], «matches» => .ok «matches»
  | gist :: rest, «matches» =>
    match gist.files.head? with
    | none => .error .indexError
    | some (_file_name, fr) =>
      match env.get_text fr.raw_url with
      | .error e => .error e
      | .ok raw_text =>
        match env.compile pattern with
        | .error e => .error e
        | .ok search_pattern =>
          let search_result := env.findall search_pattern raw_text
          if search_result.isEmpty then
            process_gists env username pattern rest «matches»
          else
            process_gists env username pattern rest
              («matches» ++ [gist_match_url username gist.id])

/-- The body of `search()` after validation: list the gists (a listing
failure propagates), run the loop, and build the result dict with
`status = 'success'`. -/
def search_gists (env : Env) (username pattern : String) :
    Except PyError SearchResult :=
  match gists_for_user env username with
  | .error e => .error e
  | .ok gists =>
    match process_gists env username pattern gists [] with
    | .error e => .error e
    | .ok «matches» => .ok ⟨"success", username, pattern, «matches»⟩

/-- The parsed POST body: each field is present (`some`) or absent (`none`). -/
structure PostData where
  username : Option String
  pattern : Option String
deriving Repr, DecidableEq

/-- The `invalid_arguments` list built by `search()`: an entry for
`username` when it is missing or empty, then an entry for `pattern`
when it is missing or empty. -/
def invalid_arguments (d : PostData) : List (String × String) :=
  (if d.username = none ∨ d.username = some "" then
    [("username", "Invalid data or data not provided")]
  else []) ++
  (if d.pattern = none ∨ d.pattern = some "" then
    [("pattern", "Invalid data or data not provided")]
  else [])

/-- The HTTP responses the handler can produce: `jsonify(invalid_arguments), 400`;
`jsonify(result)` (HTTP 200); or an uncaught Python exception, which Flask
turns into a server error. -/
inductive Response where
  | badRequest (body : List (String × String))
  | ok (body : SearchResult)
  | serverError (e : PyError)
deriving Repr, DecidableEq

/-- The whole `search()` view function: validate, then
`post_data['username']` / `post_data['pattern']` (the `KeyError` branches
are unreachable once validation passed) and the orchestration body. -/
def search_endpoint (env : Env) (d : PostData) : Response :=
  let inv := invalid_arguments d
  if inv.isEmpty then
    match d.username, d.pattern with
    | some username, some pattern =>
      match search_gists env username pattern with
      | .ok r => .ok r
      | .error e => .serverError e
    | none, _ => .serverError (.keyError "username")
    | _, none => .serverError (.keyError "pattern")
  else
    .badRequest inv

/-- The `/ping` route. -/
def ping : String := "pong"

/-- What the loop body observes about one gist: `none` when examining it
raises (empty `files` mapping, or the fetch of the first file's `raw_url`
or the pattern compilation fails), otherwise `some b` where `b` says
whether `re.findall` found at least one occurrence in the fetched text. -/
def gistExamined (env : Env) (pattern : String) (g : Gist) : Option Bool :=
  match g.files.head? with
  | none => none
  | some (_, fr) =>
    match env.get_text fr.raw_url, env.compile pattern with
    | .ok raw_text, .ok cp => some (!(env.findall cp raw_text).isEmpty)
    | _, _ => none

/-- The contribution of one gist to `matches`: its constructed URL when
it was examined and matched, nothing otherwise. -/
def matchedUrl (env : Env) (username pattern : String) (g : Gist) : Option String :=
  if gistExamined env pattern g = some true then
    some (gist_match_url username g.id)
  else none

/-- `true` on `Except.ok`. -/
def isOkB {ε α : Type} : Except ε α → Bool
  | .ok _ => true
  | .error _ => false

/-! Concrete environments and data used to evaluate the theorems on
closed inputs. `substrFindall` is one admissible behaviour of
`re.findall` for a pattern with no metacharacters: it reports an
occurrence iff the pattern occurs as a substring anywhere in the text. -/

/-- Whether `p` is an initial segment of `t`. -/
def isPrefixB : List Char → List Char → Bool
  | [], _ => true
  | _ :: _, [] => false
  | a :: ps, b :: ts => a == b && isPrefixB ps ts

/-- Whether `p` occurs as a contiguous segment of `t`. -/
def containsSubB (p : List Char) : List Char → Bool
  | [] => isPrefixB p []
  | b :: ts => isPrefixB p (b :: ts) || containsSubB p ts

/-- Literal-substring `findall`: non-empty iff `p` occurs somewhere in `t`. -/
def substrFindall (p t : String) : List String :=
  if containsSubB p.toList t.toList then [p] else []

/-- A `re.compile` that always succeeds. -/
def okCompile : String → Except PyError String := fun p => .ok p

def fileA : FileRef := ⟨"https://raw.example/a"⟩

def fileB : FileRef := ⟨"https://raw.example/b"⟩

def fileC : FileRef := ⟨"https://raw.example/c"⟩

/-- A gist with a single file. -/
def gist1 : Gist := ⟨"g1", [("a.txt", fileA)]⟩

/-- A gist with an empty `files` mapping. -/
def gistEmpty : Gist := ⟨"g0", []⟩

/-- A gist with two files. -/
def gistTwo : Gist := ⟨"g2", [("a.txt", fileA), ("b.txt", fileB)]⟩

/-- A second single-file gist. -/
def gist3 : Gist := ⟨"g3", [("c.txt", fileC)]⟩

/-- Listing is empty; compiling any pattern fails. -/
def envEmptyList : Env :=
  ⟨fun _ => .ok [], fun _ => .ok "", fun _ => .error (.patternError "unbalanced"),
    fun _ _ => []⟩

/-- Listing returns `gist1`, its file fetches fine, but compilation fails. -/
def envBadPattern : Env :=
  ⟨fun _ => .ok [gist1], fun _ => .ok "hello",
    fun _ => .error (.patternError "unbalanced"), fun _ _ => []⟩

/-- Listing returns a zero-file gist followed by a matching one. -/
def envEmptyFiles : Env :=
  ⟨fun _ => .ok [gistEmpty, gist1], fun _ => .ok "hello", okCompile, substrFindall⟩

/-- Fetching `gist1`'s file fails; `gist3`'s file fetches fine and matches. -/
def envFetchFail : Env :=
  ⟨fun _ => .ok [gist1, gist3],
    fun url => if url = fileA.raw_url then .error (.requestError "boom") else .ok "hello",
    okCompile, substrFindall⟩

/-- One gist whose content matches the pattern `foo`. -/
def envMatch : Env :=
  ⟨fun _ => .ok [gist1], fun _ => .ok "foobar", okCompile, substrFindall⟩

/-- One gist whose content does not match the pattern `foo`. -/
def envNoMatch : Env :=
  ⟨fun _ => .ok [gist1], fun _ => .ok "bar", okCompile, substrFindall⟩

/-- `gist1` matches `foo`, `gist3` does not. -/
def envFilter : Env :=
  ⟨fun _ => .ok [gist1, gist3],
    fun url => if url = fileA.raw_url then .ok "foobar" else .ok "bar",
    okCompile, substrFindall⟩

/-- Two-file gist; the first file matches, the second file's URL answers too. -/
def env8a : Env :=
  ⟨fun _ => .ok [gistTwo],
    fun url => if url = fileA.raw_url then .ok "foo" else .ok "side-a",
    okCompile, substrFindall⟩

/-- Same as `env8a` except the second file's URL now fails; only the first
file's URL is ever consulted, so nothing can tell the two apart. -/
def env8b : Env :=
  ⟨fun _ => .ok [gistTwo],
    fun url => if url = fileA.raw_url then .ok "foo" else .error (.requestError "down"),
    okCompile, substrFindall⟩

/-! Helper lemmas shared by the claim theorems. -/

/-- A successful run of the loop examined every gist without raising, and
produced exactly the accumulated list followed by the order-preserving
filter of the gists that matched. -/
theorem process_gists_ok_iff (env : Env) (u p : String) :
    ∀ (gs : List Gist) (acc m : List String),
      process_gists env u p gs acc = .ok m →
      (∀ g ∈ gs, (gistExamined env p g).isSome) ∧
      m = acc ++ gs.filterMap (matchedUrl env u p) := by
  intro gs
  induction gs with
  | nil =>
    intro acc m h
    simp only [process_gists] at h
    injection h with h
    subst h
    simp
  | cons gist rest ih =>
    intro acc m h
    simp only [process_gists] at h
    cases hhead : gist.files.head? with
    | none => simp [hhead] at h
    | some nf =>
      obtain ⟨fn, fr⟩ := nf
      cases htext : env.get_text fr.raw_url with
      | error e => simp [hhead, htext] at h
      | ok raw_text =>
        cases hcomp : env.compile p with
        | error e => simp [hhead, htext, hcomp] at h
        | ok cp =>
          simp only [hhead, htext, hcomp] at h
          have hex : gistExamined env p gist =
              some (!(env.findall cp raw_text).isEmpty) := by
            simp [gistExamined, hhead, htext, hcomp]
          by_cases hempty : (env.findall cp raw_text).isEmpty
          · rw [if_pos hempty] at h
            obtain ⟨ha, hm⟩ := ih acc m h
            have hmu : matchedUrl env u p gist = none := by
              simp [matchedUrl, hex, hempty]
            refine ⟨?_, ?_⟩
            · intro g hg
              rcases List.mem_cons.mp hg with hg | hg
              · rw [hg, hex]; rfl
              · exact ha g hg
            · simpa [List.filterMap_cons, hmu] using hm
          · rw [if_neg hempty] at h
            obtain ⟨ha, hm⟩ := ih (acc ++ [gist_match_url u gist.id]) m h
            have hmu : matchedUrl env u p gist =
                some (gist_match_url u gist.id) := by
              simp only [Bool.not_eq_true] at hempty
              simp [matchedUrl, hex, hempty]
            refine ⟨?_, ?_⟩
            · intro g hg
              rcases List.mem_cons.mp hg with hg | hg
              · rw [hg, hex]; rfl
              · exact ha g hg
            · simpa [List.filterMap_cons, hmu] using hm

/-- A successful orchestration run decomposes into a successful listing
and a successful loop over exactly that listing. -/
theorem search_gists_ok_elim (env : Env) (u p : String) (r : SearchResult)
    (hr : search_gists env u p = .ok r) :
    ∃ gs, gists_for_user env u = .ok gs ∧
      (∀ g ∈ gs, (gistExamined env p g).isSome) ∧
      r = ⟨"success", u, p, gs.filterMap (matchedUrl env u p)⟩ := by
  cases hj : gists_for_user env u with
  | error e => simp [search_gists, hj] at hr
  | ok gs =>
    cases hp : process_gists env u p gs [] with
    | error e => simp [search_gists, hj, hp] at hr
    | ok ms =>
      obtain ⟨ha, hm⟩ := process_gists_ok_iff env u p gs [] ms hp
      refine ⟨gs, rfl, ha, ?_⟩
      simp only [search_gists, hj, hp] at hr
      injection hr with hr
      rw [← hr, hm]
      simp

/-- `matchedUrl` hits exactly on examined-and-matched gists. -/
theorem matchedUrl_eq_some (env : Env) (u p : String) (g : Gist) (url : String) :
    matchedUrl env u p g = some url ↔
      gistExamined env p g = some true ∧ url = gist_match_url u g.id := by
  unfold matchedUrl
  by_cases hx : gistExamined env p g = some true
  · simp [hx, eq_comm]
  · simp [hx]

/-- Claim C1: for every completed search, the matches list contains the
constructed URL for a paste if and only if `re.findall` found the pattern
somewhere in the raw content of the single file examined for that paste
(the first entry of its `files` mapping): membership in `matches` is
equivalent to the existence of a listed gist that was examined with a
non-empty findall result and whose constructed URL is that string. -/
theorem claim_C1_matches_iff (env : Env) (u p : String) (r : SearchResult)
    (gs : List Gist) (hr : search_gists env u p = .ok r)
    (hgs : gists_for_user env u = .ok gs) :
    ∀ url, url ∈ r.«matches» ↔
      ∃ g ∈ gs, gistExamined env p g = some true ∧
        url = gist_match_url u g.id := by
  obtain ⟨gs2, hj, _, hrr⟩ := search_gists_ok_elim env u p r hr
  rw [hgs] at hj
  injection hj with hj
  subst hj
  subst hrr
  intro url
  simp only [List.mem_filterMap]
  constructor
  · rintro ⟨g, hg, hmu⟩
    exact ⟨g, hg, (matchedUrl_eq_some env u p g url).mp hmu⟩
  · rintro ⟨g, hg, hx, hu⟩
    exact ⟨g, hg, (matchedUrl_eq_some env u p g url).mpr ⟨hx, hu⟩⟩

/-- Witness for C1: concrete run where the single gist's content `foobar`
matches the pattern `foo` and its URL is in the matches list. -/
theorem claim_C1_witness :
    "https://gist.github.com/alice/g1" ∈
      (⟨"success", "alice", "foo", ["https://gist.github.com/alice/g1"]⟩ :
        SearchResult).«matches» ↔
      ∃ g ∈ [gist1], gistExamined envMatch "foo" g = some true ∧
        "https://gist.github.com/alice/g1" = gist_match_url "alice" g.id :=
  claim_C1_matches_iff envMatch "alice" "foo"
    ⟨"success", "alice", "foo", ["https://gist.github.com/alice/g1"]⟩
    [gist1] rfl rfl "https://gist.github.com/alice/g1"

/-- Claim C5: the matches of a completed search are the order-preserving
filter of the listing order, each element being the constructed URL
`https://gist.github.com/<username>/<gist_id>` of a matching gist. -/
theorem claim_C5_order_preserving_filter (env : Env) (u p : String)
    (r : SearchResult) (gs : List Gist)
    (hr : search_gists env u p = .ok r)
    (hgs : gists_for_user env u = .ok gs) :
    r.«matches» = gs.filterMap (fun g =>
      if gistExamined env p g = some true then
        some ("https://gist.github.com/" ++ u ++ "/" ++ g.id)
      else none) := by
  obtain ⟨gs2, hj, _, hrr⟩ := search_gists_ok_elim env u p r hr
  rw [hgs] at hj
  injection hj with hj
  subst hj
  subst hrr
  rfl

/-- Witness for C5: concrete run over two listed gists where the first
matches and the second does not; matches is exactly the filtered listing. -/
theorem claim_C5_witness :
    (⟨"success", "alice", "foo", ["https://gist.github.com/alice/g1"]⟩ :
      SearchResult).«matches» =
      [gist1, gist3].filterMap (fun g =>
        if gistExamined envFilter "foo" g = some true then
          some ("https://gist.github.com/" ++ "alice" ++ "/" ++ g.id)
        else none) :=
  claim_C5_order_preserving_filter envFilter "alice" "foo"
    ⟨"success", "alice", "foo", ["https://gist.github.com/alice/g1"]⟩
    [gist1, gist3] rfl rfl

/-- Claim C6: whenever orchestration completes, the result carries
status `success` and echoes the username and pattern — even when matches
is empty; a completed run never carries status `error`. -/
theorem claim_C6_status_success (env : Env) (u p : String) (r : SearchResult)
    (hr : search_gists env u p = .ok r) :
    r.status = "success" ∧ r.username = u ∧ r.pattern = p ∧
      r.status ≠ "error" := by
  obtain ⟨gs, _, _, hrr⟩ := search_gists_ok_elim env u p r hr
  subst hrr
  exact ⟨rfl, rfl, rfl, by simp⟩

/-- Witness for C6: concrete completed run with zero matches still has
status `success` and echoes its inputs. -/
theorem claim_C6_witness :
    (⟨"success", "bob", "foo", []⟩ : SearchResult).status = "success" ∧
    (⟨"success", "bob", "foo", []⟩ : SearchResult).username = "bob" ∧
    (⟨"success", "bob", "foo", []⟩ : SearchResult).pattern = "foo" ∧
    (⟨"success", "bob", "foo", []⟩ : SearchResult).status ≠ "error" :=
  claim_C6_status_success envNoMatch "bob" "foo" ⟨"success", "bob", "foo", []⟩ rfl

/-- Claim C9 (implicit): when the listing returns an empty array, the
endpoint answers HTTP 200 with a success result and empty matches for
every non-empty pattern string — including ones `re.compile` would reject,
since compilation only happens inside the per-gist loop, which is never
entered. -/
theorem claim_C9_empty_listing_success (env : Env) (u p : String)
    (hu : u ≠ "") (hp : p ≠ "")
    (hlist : env.get_json (gists_url u) = .ok []) :
    search_endpoint env ⟨some u, some p⟩ = .ok ⟨"success", u, p, []⟩ := by
  have hinv : invalid_arguments ⟨some u, some p⟩ = [] := by
    simp [invalid_arguments, hu, hp]
  simp [search_endpoint, hinv, search_gists, gists_for_user, hlist, process_gists]

/-- Witness for C9: with `envEmptyList` (empty listing, a `compile` that
rejects every pattern) and the invalid pattern `(`, the endpoint still
answers success with empty matches. -/
theorem claim_C9_witness :
    ("alice" : String) ≠ "" ∧ ("(" : String) ≠ "" ∧
    envEmptyList.get_json (gists_url "alice") = .ok [] ∧
    envEmptyList.compile "(" = .error (.patternError "unbalanced") ∧
    search_endpoint envEmptyList ⟨some "alice", some "("⟩ =
      .ok ⟨"success", "alice", "(", []⟩ :=
  ⟨by decide, by decide, rfl, rfl,
    claim_C9_empty_listing_success envEmptyList "alice" "(" (by decide) (by decide) rfl⟩

/-- Claim C10 (implicit): each listed gist contributes at most one entry
to matches, so the length of matches never exceeds the number of gists
returned by the listing call. -/
theorem claim_C10_length_le (env : Env) (u p : String) (r : SearchResult)
    (gs : List Gist) (hr : search_gists env u p = .ok r)
    (hgs : gists_for_user env u = .ok gs) :
    r.«matches».length ≤ gs.length := by
  obtain ⟨gs2, hj, _, hrr⟩ := search_gists_ok_elim env u p r hr
  rw [hgs] at hj
  injection hj with hj
  subst hj
  subst hrr
  simpa using List.length_filterMap_le (matchedUrl env u p) gs

/-- Witness for C10: concrete run with one listed gist and one match. -/
theorem claim_C10_witness :
    (⟨"success", "alice", "foo", ["https://gist.github.com/alice/g1"]⟩ :
      SearchResult).«matches».length ≤ ([gist1] : List Gist).length :=
  claim_C10_length_le envMatch "alice" "foo"
    ⟨"success", "alice", "foo", ["https://gist.github.com/alice/g1"]⟩
    [gist1] rfl rfl

/-- Claim C7: when `username` or `pattern` is missing or empty, the
endpoint answers HTTP 400 with the validation list, which has an entry
keyed `username` exactly when that field is missing/empty and an entry
keyed `pattern` exactly when that field is missing/empty; the response is
computed from the body alone (it is the same for every environment), so
listing/fetching/matching is never invoked. -/
theorem claim_C7_validation (env : Env) (d : PostData)
    (h : d.username = none ∨ d.username = some "" ∨
      d.pattern = none ∨ d.pattern = some "") :
    search_endpoint env d = .badRequest (invalid_arguments d) ∧
    ((("username", "Invalid data or data not provided") ∈
        invalid_arguments d) ↔
      (d.username = none ∨ d.username = some "")) ∧
    ((("pattern", "Invalid data or data not provided") ∈
        invalid_arguments d) ↔
      (d.pattern = none ∨ d.pattern = some "")) := by
  have hne : invalid_arguments d ≠ [] := by
    unfold invalid_arguments
    rcases h with h | h | h | h <;> simp [h]
  refine ⟨?_, ?_, ?_⟩
  · simp only [search_endpoint]
    rw [if_neg (by simpa using hne)]
  · unfold invalid_arguments
    by_cases hu : d.username = none ∨ d.username = some "" <;>
      by_cases hp : d.pattern = none ∨ d.pattern = some "" <;>
        simp [hu, hp]
  · unfold invalid_arguments
    by_cases hu : d.username = none ∨ d.username = some "" <;>
      by_cases hp : d.pattern = none ∨ d.pattern = some "" <;>
        simp [hu, hp]

/-- Witness for C7: with both fields missing the endpoint answers 400 and
both validation entries appear. -/
theorem claim_C7_witness :
    invalid_arguments ⟨none, none⟩ =
      [("username", "Invalid data or data not provided"),
        ("pattern", "Invalid data or data not provided")] ∧
    (search_endpoint envMatch ⟨none, none⟩ =
      .badRequest (invalid_arguments ⟨none, none⟩) ∧
    ((("username", "Invalid data or data not provided") ∈
        invalid_arguments ⟨none, none⟩) ↔
      ((⟨none, none⟩ : PostData).username = none ∨
        (⟨none, none⟩ : PostData).username = some "")) ∧
    ((("pattern", "Invalid data or data not provided") ∈
        invalid_arguments ⟨none, none⟩) ↔
      ((⟨none, none⟩ : PostData).pattern = none ∨
        (⟨none, none⟩ : PostData).pattern = some ""))) :=
  ⟨rfl, claim_C7_validation envMatch ⟨none, none⟩ (Or.inl rfl)⟩

/-- The loop's outcome only depends on `get_text` at the first file of
each listed gist: two environments that agree on `compile`, `findall`,
and on `get_text` at each gist's first-file URL run the loop to the same
result, whatever `get_text` does elsewhere. -/
theorem process_gists_congr (env1 env2 : Env) (u p : String)
    (hc : env1.compile = env2.compile) (hf : env1.findall = env2.findall) :
    ∀ (gs : List Gist) (acc : List String),
      (∀ g ∈ gs, ∀ fn fr, g.files.head? = some (fn, fr) →
        env1.get_text fr.raw_url = env2.get_text fr.raw_url) →
      process_gists env1 u p gs acc = process_gists env2 u p gs acc := by
  intro gs
  induction gs with
  | nil => intro acc ht; rfl
  | cons gist rest ih =>
    intro acc ht
    have ihr : ∀ acc2, process_gists env1 u p rest acc2 =
        process_gists env2 u p rest acc2 :=
      fun acc2 => ih acc2
        (fun g hg fn2 fr2 hh => ht g (List.mem_cons_of_mem gist hg) fn2 fr2 hh)
    cases hhead : gist.files.head? with
    | none => simp only [process_gists, hhead]
    | some nf =>
      obtain ⟨fn, fr⟩ := nf
      have htg : env1.get_text fr.raw_url = env2.get_text fr.raw_url :=
        ht gist (List.mem_cons_self gist rest) fn fr hhead
      simp only [process_gists, hhead]
      rw [← htg, ← hc, ← hf]
      cases env1.get_text fr.raw_url with
      | error e => rfl
      | ok raw_text =>
        cases env1.compile p with
        | error e => rfl
        | ok cp =>
          by_cases hempty : (env1.findall cp raw_text).isEmpty <;>
            simp [hempty, ihr]

/-- Claim C8: only the first entry of each gist's `files` mapping is ever
examined — the search outcome is unchanged under any modification of the
remote raw-content service away from the first-file URLs of the listed
gists. -/
theorem claim_C8_first_file_only (env1 env2 : Env) (u p : String)
    (gs : List Gist)
    (h1 : gists_for_user env1 u = .ok gs)
    (h2 : gists_for_user env2 u = .ok gs)
    (hc : env1.compile = env2.compile)
    (hf : env1.findall = env2.findall)
    (ht : ∀ g ∈ gs, ∀ fn fr, g.files.head? = some (fn, fr) →
      env1.get_text fr.raw_url = env2.get_text fr.raw_url) :
    search_gists env1 u p = search_gists env2 u p := by
  simp only [search_gists, h1, h2]
  rw [process_gists_congr env1 env2 u p hc hf gs [] ht]

/-- Witness for C8: `env8a` and `env8b` disagree on the second file's URL
of the listed two-file gist, yet the search outcome is identical. -/
theorem claim_C8_witness :
    env8a.get_text fileB.raw_url ≠ env8b.get_text fileB.raw_url ∧
    search_gists env8a "alice" "foo" = search_gists env8b "alice" "foo" := by
  refine ⟨by simp [env8a, env8b, fileB, fileA], ?_⟩
  refine claim_C8_first_file_only env8a env8b "alice" "foo" [gistTwo]
    rfl rfl rfl rfl ?_
  intro g hg fn fr hh
  have hgg : g = gistTwo := by simpa using hg
  subst hgg
  have hh2 : some ("a.txt", fileA) = some (fn, fr) := hh
  simp only [Option.some.injEq, Prod.mk.injEq] at hh2
  obtain ⟨_, hfr⟩ := hh2
  rw [← hfr]
  rfl

/-- C2 counterexample: the pattern `(` fails to compile in this
environment, yet the search completes with a success result — no
InvalidPatternError is raised at all; the outcome is determined by the
(attempted) listing call, which returned an empty array. -/
theorem claim_C2_counterexample :
    envEmptyList.compile "(" = .error (.patternError "unbalanced") ∧
    search_gists envEmptyList "alice" "(" =
      .ok ⟨"success", "alice", "(", []⟩ :=
  ⟨rfl, rfl⟩

/-- Claim C2 amended: `re.compile` runs inside the per-gist loop, after
the listing call and after the first gist's raw content was fetched;
only then does an invalid pattern surface as an error. -/
theorem claim_C2_amended_compile_inside_loop (env : Env) (u p : String)
    (g : Gist) (rest : List Gist) (fn : String) (fr : FileRef)
    (raw : String) (e : PyError)
    (hlist : gists_for_user env u = .ok (g :: rest))
    (hhead : g.files.head? = some (fn, fr))
    (htext : env.get_text fr.raw_url = .ok raw)
    (hcomp : env.compile p = .error e) :
    search_gists env u p = .error e := by
  simp [search_gists, hlist, process_gists, hhead, htext, hcomp]

/-- Witness for amended C2: listing and fetch succeed, then the bad
pattern aborts the search with the compilation error. -/
theorem claim_C2_witness :
    gists_for_user envBadPattern "alice" = .ok [gist1] ∧
    envBadPattern.get_text fileA.raw_url = .ok "hello" ∧
    envBadPattern.compile "(" = .error (.patternError "unbalanced") ∧
    search_gists envBadPattern "alice" "(" =
      .error (.patternError "unbalanced") :=
  ⟨rfl, rfl, rfl,
    claim_C2_amended_compile_inside_loop envBadPattern "alice" "(" gist1 []
      "a.txt" fileA "hello" (.patternError "unbalanced") rfl rfl rfl rfl⟩

/-- C3 counterexample: a zero-file gist is not skipped — it raises
IndexError and aborts the whole search, even though the next listed gist
would have matched. -/
theorem claim_C3_counterexample :
    gists_for_user envEmptyFiles "alice" = .ok [gistEmpty, gist1] ∧
    gistEmpty.files = [] ∧
    gistExamined envEmptyFiles "hello" gist1 = some true ∧
    search_gists envEmptyFiles "alice" "hello" = .error .indexError :=
  ⟨rfl, rfl, rfl, rfl⟩

/-- Claim C3 amended: a listed gist with an empty `files` mapping makes
`list(gist.get("files").keys())[0]` raise IndexError, so the search can
never complete: no listing containing such a gist yields an `ok` result. -/
theorem claim_C3_amended_empty_files_aborts (env : Env) (u p : String)
    (gs : List Gist) (g : Gist)
    (hlist : gists_for_user env u = .ok gs)
    (hg : g ∈ gs) (hfiles : g.files = []) :
    isOkB (search_gists env u p) = false := by
  cases hr : search_gists env u p with
  | error e => rfl
  | ok r =>
    obtain ⟨gs2, hj, ha, _⟩ := search_gists_ok_elim env u p r hr
    rw [hlist] at hj
    injection hj with hj
    subst hj
    have hsome := ha g hg
    rw [show gistExamined env p g = none by simp [gistExamined, hfiles]]
      at hsome
    exact absurd hsome (by simp)

/-- Witness for amended C3: a listing containing a zero-file gist never
produces an `ok` search result. -/
theorem claim_C3_witness :
    gists_for_user envEmptyFiles "bob" = .ok [gistEmpty, gist1] ∧
    gistEmpty ∈ [gistEmpty, gist1] ∧ gistEmpty.files = [] ∧
    isOkB (search_gists envEmptyFiles "bob" "hello") = false :=
  ⟨rfl, List.mem_cons_self gistEmpty [gist1], rfl,
    claim_C3_amended_empty_files_aborts envEmptyFiles "bob" "hello"
      [gistEmpty, gist1] gistEmpty rfl (List.mem_cons_self gistEmpty [gist1]) rfl⟩

/-- C4 counterexample: the first gist's raw-content fetch fails and the
whole search aborts with that error, even though the second listed gist
fetches fine and matches — the failed paste is not skipped and the
remaining pastes are not processed. -/
theorem claim_C4_counterexample :
    gists_for_user envFetchFail "alice" = .ok [gist1, gist3] ∧
    envFetchFail.get_text fileA.raw_url = .error (.requestError "boom") ∧
    gistExamined envFetchFail "hello" gist3 = some true ∧
    search_gists envFetchFail "alice" "hello" =
      .error (.requestError "boom") :=
  ⟨rfl, rfl, rfl, rfl⟩

/-- Claim C4 amended: a failure while fetching a gist's selected file is
not caught anywhere — it propagates out of the loop and aborts the whole
search with that error; later pastes are not processed. -/
theorem claim_C4_amended_fetch_failure_aborts (env : Env) (u p : String)
    (g : Gist) (rest : List Gist) (fn : String) (fr : FileRef) (e : PyError)
    (hlist : gists_for_user env u = .ok (g :: rest))
    (hhead : g.files.head? = some (fn, fr))
    (htext : env.get_text fr.raw_url = .error e) :
    search_gists env u p = .error e := by
  simp [search_gists, hlist, process_gists, hhead, htext]

/-- Witness for amended C4: the concrete fetch failure aborts the search
with the propagated request error. -/
theorem claim_C4_witness :
    gists_for_user envFetchFail "carol" = .ok [gist1, gist3] ∧
    envFetchFail.get_text fileA.raw_url = .error (.requestError "boom") ∧
    search_gists envFetchFail "carol" "hello" =
      .error (.requestError "boom") :=
  ⟨rfl, rfl,
    claim_C4_amended_fetch_failure_aborts envFetchFail "carol" "hello"
      gist1 [gist3] "a.txt" fileA (.requestError "boom") rfl rfl rfl⟩

end Gistapi
